import Mathlib

/-!
# Verification of the HTMLnoJS orchestration core

Shallow embedding, in Lean 4, of the orchestration core of the HTMLnoJS
repository: port allocation (`port_manager.py`), the Go-server supervisor
(`go_server.py`), the dependency gate (`dependency_manager.py`), the HTMX
server thread (`htmlnojs/htmx_server.py`), the orchestrator (`core.py`)
and the instance registry.  Host effects (socket binds, subprocesses,
HTTP probes, wall-clock time) are modelled as oracle functions passed to
the embedded code; everything else follows the Python source line by line.
-/

/-! ## Port allocation (`port_manager.py`) -/

/-- The list `[c, c+1, ..., c+n-1]`: the candidate ports a scan starting at
`c` with `n` remaining budget will visit, in order. -/
def rangeFrom : Nat → Nat → List Nat
  | _c, 0 => []
  | c, n + 1 => c :: rangeFrom (c + 1) n

/-- Loop body of `PortManager.find_available_ports`: `while
len(available_ports) < count and current_port < start_port + 1000`, append
`current_port` when `is_port_available(current_port)`, then increment.
The fuel argument is the number of candidates left in the scan window;
`avail` is the oracle for `is_port_available` (a momentary bind probe). -/
def findPortsAux (avail : Nat → Bool) (count : Nat) : Nat → Nat → List Nat → List Nat
  | _current, 0, acc => acc
  | current, fuel + 1, acc =>
    if acc.length < count then
      if avail current then
        findPortsAux avail count (current + 1) fuel (acc ++ [current])
      else
        findPortsAux avail count (current + 1) fuel acc
    else acc

/-- `PortManager.find_available_ports(start_port, count)`: scans the window
`[start_port, start_port + 1000)` in order, collecting up to `count`
available ports. -/
def find_available_ports (avail : Nat → Bool) (start_port count : Nat) : List Nat :=
  findPortsAux avail count start_port 1000 []

/-- `PortManager.allocate_port_pair(start_port)`: asks for two ports and
raises (`none`) when fewer than two were found. -/
def allocate_port_pair (avail : Nat → Bool) (start_port : Nat) : Option (Nat × Nat) :=
  match find_available_ports avail start_port 2 with
  | a :: b :: _ => some (a, b)
  | _ => none

/-- Port selection in `HTMLnoJS.__init__` (`core.py`): `if port:` — Python
truthiness, so a supplied port `0` (like `None`) falls through to
`PortManager.allocate_port_pair(8080)`; a non-zero supplied port gives
`(port, port + 1)` with no availability probe. -/
def allocate_instance_ports (avail : Nat → Bool) (port : Option Nat) : Option (Nat × Nat) :=
  match port with
  | some p => if p ≠ 0 then some (p, p + 1) else allocate_port_pair avail 8080
  | none => allocate_port_pair avail 8080

/-- Concrete availability oracle: no port on the host is free. -/
def noPorts : Nat → Bool := fun _ => false

/-- Concrete availability oracle: exactly ports 9000 and 9001 are free. -/
def availBoth9000 : Nat → Bool := fun p => p == 9000 || p == 9001

/-- Concrete availability oracle: 9000 occupied, 9001 and 9002 free. -/
def availFrom9001 : Nat → Bool := fun p => p == 9001 || p == 9002

/-! ## Helper lemmas on the port scan -/

theorem rangeFrom_mem {x : Nat} : ∀ (n c : Nat), x ∈ rangeFrom c n ↔ c ≤ x ∧ x < c + n := by
  intro n
  induction n with
  | zero =>
    intro c
    simp only [rangeFrom, List.not_mem_nil, false_iff, not_and, not_lt]
    omega
  | succ n ih =>
    intro c
    simp only [rangeFrom, List.mem_cons, ih (c + 1)]
    omega

theorem rangeFrom_pairwise_lt : ∀ (n c : Nat), (rangeFrom c n).Pairwise (· < ·) := by
  intro n
  induction n with
  | zero => intro c; simp [rangeFrom]
  | succ n ih =>
    intro c
    refine List.Pairwise.cons ?_ (ih (c + 1))
    intro x hx
    have := (rangeFrom_mem n (c + 1)).1 hx
    omega

theorem findPortsAux_eq (avail : Nat → Bool) (count : Nat) :
    ∀ (fuel current : Nat) (acc : List Nat),
      findPortsAux avail count current fuel acc =
        acc ++ ((rangeFrom current fuel).filter avail).take (count - acc.length) := by
  intro fuel
  induction fuel with
  | zero => intro current acc; simp [findPortsAux, rangeFrom]
  | succ fuel ih =>
    intro current acc
    simp only [findPortsAux]
    by_cases hlen : acc.length < count
    · rw [if_pos hlen]
      cases hav : avail current with
      | true =>
        rw [if_pos rfl, ih (current + 1) (acc ++ [current])]
        have hcount : count - acc.length = (count - (acc ++ [current]).length) + 1 := by
          simp only [List.length_append, List.length_singleton]
          omega
        simp only [rangeFrom]
        rw [List.filter_cons_of_pos hav, hcount, List.take_succ_cons,
          List.append_assoc, List.singleton_append]
      | false =>
        rw [if_neg Bool.false_ne_true, ih (current + 1) acc]
        simp only [rangeFrom]
        rw [List.filter_cons_of_neg (by simp [hav])]
    · have h0 : count - acc.length = 0 := by omega
      rw [if_neg hlen, h0]
      simp

theorem find_available_ports_eq (avail : Nat → Bool) (start_port count : Nat) :
    find_available_ports avail start_port count =
      ((rangeFrom start_port 1000).filter avail).take count := by
  rw [find_available_ports, findPortsAux_eq]
  simp

theorem find_available_ports_pairwise (avail : Nat → Bool) (s c : Nat) :
    (find_available_ports avail s c).Pairwise (· < ·) := by
  rw [find_available_ports_eq]
  exact List.Pairwise.sublist (List.take_sublist _ _)
    ((rangeFrom_pairwise_lt 1000 s).filter avail)

theorem find_available_ports_mem (avail : Nat → Bool) (s c x : Nat)
    (hx : x ∈ find_available_ports avail s c) :
    avail x = true ∧ s ≤ x ∧ x < s + 1000 := by
  rw [find_available_ports_eq] at hx
  have hx' := List.mem_of_mem_take hx
  have h1 := List.of_mem_filter hx'
  have h2 := (rangeFrom_mem 1000 s).1 (List.mem_of_mem_filter hx')
  exact ⟨h1, h2⟩

theorem find_available_ports_length (avail : Nat → Bool) (s c : Nat) :
    (find_available_ports avail s c).length =
      min c ((rangeFrom s 1000).filter avail).length := by
  rw [find_available_ports_eq, List.length_take]

theorem allocate_port_pair_some (avail : Nat → Bool) (s a b : Nat)
    (h : allocate_port_pair avail s = some (a, b)) :
    a < b ∧ avail a = true ∧ avail b = true ∧ s ≤ a ∧ b < s + 1000 := by
  unfold allocate_port_pair at h
  cases hf : find_available_ports avail s 2 with
  | nil => rw [hf] at h; exact absurd h (by simp)
  | cons x t =>
    cases t with
    | nil => rw [hf] at h; exact absurd h (by simp)
    | cons y t2 =>
      rw [hf] at h
      have hpw := find_available_ports_pairwise avail s 2
      rw [hf] at hpw
      have hxy : x < y := (List.pairwise_cons.1 hpw).1 y (List.mem_cons_self _ _)
      have hmx := find_available_ports_mem avail s 2 x
        (by rw [hf]; exact List.mem_cons_self _ _)
      have hmy := find_available_ports_mem avail s 2 y
        (by rw [hf]; exact List.mem_cons_of_mem _ (List.mem_cons_self _ _))
      have hinj := Option.some.inj h
      have ha : a = x := (congrArg Prod.fst hinj).symm
      have hb : b = y := (congrArg Prod.snd hinj).symm
      rw [ha, hb]
      exact ⟨hxy, hmx.1, hmy.1, hmx.2.1, hmy.2.2⟩

theorem allocate_port_pair_none_iff (avail : Nat → Bool) (s : Nat) :
    allocate_port_pair avail s = none ↔ (find_available_ports avail s 2).length < 2 := by
  unfold allocate_port_pair
  cases hf : find_available_ports avail s 2 with
  | nil => simp
  | cons x t =>
    cases t with
    | nil => simp
    | cons y t2 => simp

theorem min_two_lt (L : Nat) : min 2 L < 2 ↔ L < 2 := by
  rw [Nat.min_def]
  split <;> omega

/-! ## Go server supervisor (`go_server.py`) -/

/-- `GoServer._test_health`: the HTTP probe's outcome is `some status` for a
response and `none` for any raised error (connection refused, timeout);
the method returns `response.status < 500`, and the bare `except` clause
returns `False` on any error. -/
def goTestHealth : Option Nat → Bool
  | some status => decide (status < 500)
  | none => false

/-- Outcome of the readiness poll loop in `GoServer.start`. -/
inductive PollOutcome where
  | healthy (i : Nat)
  | died (i : Nat)
  | timedOut
deriving DecidableEq

/-- The `for _ in range(30)` loop of `GoServer.start`, iteration index `i`
and remaining iterations `fuel`.  `alive i` is the oracle for
`self._process.returncode is None` at iteration `i`; `health i` is the
probe outcome at iteration `i`.  Each iteration first checks whether the
process died (return `False` at once), then probes health (sub-500 response
means return `True`), otherwise sleeps and continues. -/
def goPollAux (alive : Nat → Bool) (health : Nat → Option Nat) : Nat → Nat → PollOutcome
  | _i, 0 => .timedOut
  | i, fuel + 1 =>
    if alive i = false then .died i
    else if goTestHealth (health i) then .healthy i
    else goPollAux alive health (i + 1) fuel

/-- The full 30-iteration poll loop of `GoServer.start`. -/
def goPoll (alive : Nat → Bool) (health : Nat → Option Nat) : PollOutcome :=
  goPollAux alive health 0 30

/-- Return value of `GoServer.start`: `True` if already running; `False`
when the spawn raises; otherwise the poll loop decides — only a healthy
probe yields `True`, while a dead process or loop exhaustion yields
`False`. -/
def GoServer.start (isRunningAlready spawnOk : Bool) (alive : Nat → Bool)
    (health : Nat → Option Nat) : Bool :=
  if isRunningAlready then true
  else if spawnOk = false then false
  else match goPoll alive health with
    | .healthy _ => true
    | _ => false

/-- `GoServer.start` together with the state of `self._process` afterwards:
`none` when the spawn raised (the attribute was never assigned), otherwise
`some aliveAtEnd`.  On a sub-500 probe the process was just observed alive;
when the loop saw the process dead it is not alive; on loop exhaustion the
handle remains and `alive 30` tells whether the child is still alive — the
timed-out child is never killed by `GoServer.start`. -/
def goStartProc (spawnOk : Bool) (alive : Nat → Bool) (health : Nat → Option Nat) :
    Bool × Option Bool :=
  if spawnOk = false then (false, none)
  else match goPoll alive health with
    | .healthy _ => (true, some true)
    | .died _ => (false, some false)
    | .timedOut => (false, some (alive 30))

/-! ## Orchestrator startup (`core.py`, `HTMLnoJS.start`) -/

/-- Observable outcome of one run of `HTMLnoJS.start`: the returned
boolean, whether the HTMX server is left running, and whether a spawned Go
child process of this instance is still alive when `start` returns. -/
structure OrchRun where
  ret : Bool
  htmxRunning : Bool
  goChildAlive : Bool
deriving DecidableEq

/-- `HTMLnoJS.start(wait_for_deps=True)` (`core.py`): ensure dependencies,
set up the project, start the HTMX server, then start the Go server; when
the Go server's start returns `False` the HTMX server is stopped and
`False` is returned.  `depsOk`, `setupOk` and `htmxOk` are the outcomes of
the first three steps; the Go server's start is embedded via
`goStartProc`.  Nothing in the failure path stops the Go child process. -/
def HTMLnoJS.start (depsOk setupOk htmxOk spawnOk : Bool) (alive : Nat → Bool)
    (health : Nat → Option Nat) : OrchRun :=
  if depsOk = false then ⟨false, false, false⟩
  else if setupOk = false then ⟨false, false, false⟩
  else if htmxOk = false then ⟨false, false, false⟩
  else
    match goStartProc spawnOk alive health with
    | (true, p) => ⟨true, true, p == some true⟩
    | (false, p) => ⟨false, false, p == some true⟩

/-- Concrete oracle: the child process stays alive forever. -/
def alwaysAlive : Nat → Bool := fun _ => true

/-- Concrete oracle: every health probe raises (connection refused). -/
def probeAlwaysErrs : Nat → Option Nat := fun _ => none

/-! ## HTMX server thread (`htmlnojs/htmx_server.py`, `HTMXServer.thread`) -/

/-- Observable outcome of the `run()` closure of `HTMXServer.thread`:
how many health probes of the Go server were issued, whether a healthy
(sub-500) response was observed before proceeding, and whether the uvicorn
server was started. -/
structure ThreadRun where
  attempts : Nat
  goHealthy : Bool
  uvicornStarted : Bool
deriving DecidableEq

/-- The `for i in range(20)` wait loop of `HTMXServer.thread`: probe
`{base_go_url}/health`; `break` on a sub-500 status; treat any exception
as not-yet-ready and sleep.  Returns the number of probes issued and
whether the loop ended by observing a healthy response. -/
def htmxWaitAux (probe : Nat → Option Nat) : Nat → Nat → Nat × Bool
  | i, 0 => (i, false)
  | i, fuel + 1 =>
    if goTestHealth (probe i) then (i + 1, true)
    else htmxWaitAux probe (i + 1) fuel

/-- The `run()` closure of `HTMXServer.thread`: wait (boundedly) for the Go
server's health, fetch the registry (an error leaves `reg_map = {}`), then
build the FastAPI app and start uvicorn — unconditionally. -/
def HTMXServer.threadRun (probe : Nat → Option Nat) : ThreadRun :=
  let w := htmxWaitAux probe 0 20
  { attempts := w.1, goHealthy := w.2, uvicornStarted := true }

/-! ## Dependency gate (`dependency_manager.py`) -/

/-- The `while` loop of `DependencyManager.wait_for_go`: `avail t` is the
oracle for `check_go_available()` at elapsed time `t`; each iteration
checks `elapsed < timeout`, probes, and sleeps 5 time-units.  The fuel
bounds the recursion; `timeout` iterations always suffice since elapsed
time grows by 5 per iteration. -/
def waitGoAux (avail : Nat → Bool) (timeout : Nat) : Nat → Nat → Bool
  | _t, 0 => false
  | t, fuel + 1 =>
    if t < timeout then
      if avail t then true else waitGoAux avail timeout (t + 5) fuel
    else false

/-- `DependencyManager.wait_for_go(timeout)`. -/
def wait_for_go (avail : Nat → Bool) (timeout : Nat) : Bool :=
  waitGoAux avail timeout 0 timeout

/-- `DependencyManager.ensure_dependencies(timeout)`: if Go is already
available return `True`; otherwise run the install script — and only when
it reports success (`returncode == 0`) poll `wait_for_go`; when the
install attempt reports failure (script missing or nonzero exit), return
`False` immediately without polling. -/
def ensure_dependencies (avail : Nat → Bool) (installOk : Bool) (timeout : Nat) : Bool :=
  if avail 0 then true
  else if installOk then wait_for_go avail timeout
  else false

/-- Modelled from the spec: `DependencyGate.ensure(timeout)` as §4.2 words
it — "attempts a one-shot install action (external, best-effort, itself
may fail silently) and then polls `available()` on a fixed interval".
The install attempt's reported outcome is not branched on: polling always
follows.  Written only to be compared with `ensure_dependencies`, the
embedding of the source. -/
def ensureSpec (avail : Nat → Bool) (_installOk : Bool) (timeout : Nat) : Bool :=
  if avail 0 then true
  else wait_for_go avail timeout

/-- Concrete oracle: the toolchain is absent at the initial check and
present at every later instant (e.g. installed by hand meanwhile). -/
def availLater : Nat → Bool := fun t => decide (0 < t)

/-- Concrete oracle: the toolchain is always available. -/
def alwaysAvail : Nat → Bool := fun _ => true

/-! ## Teardown (`go_server.py` `GoServer.stop`, `htmlnojs/htmx_server.py`
`HTMXServer.stop`, `core.py` `HTMLnoJS.stop`) -/

/-- The `self._process` field of a `GoServer`: `none` when absent,
`some alive` when a handle is held. -/
structure GoProcSt where
  proc : Option Bool
deriving DecidableEq

/-- `GoServer.stop`: `if self._process: terminate(); await wait(); self._process = None`. -/
def GoServer.stop (s : GoProcSt) : GoProcSt :=
  match s.proc with
  | some _ => { proc := none }
  | none => s

/-- The uvicorn server state of an `HTMXServer`: `server` is
`self._server` (`none` before the thread created it, `some started`
afterwards) and `startedFlag` is `self._started`. -/
structure HtmxSt where
  server : Option Bool
  startedFlag : Bool
deriving DecidableEq

/-- `HTMXServer.stop`: `if self._server and self._server.started: await
shutdown(); self._started = False` — a no-op when no server exists or it
is not started. -/
def HTMXServer.stop (s : HtmxSt) : HtmxSt :=
  match s.server with
  | some true => { server := some false, startedFlag := false }
  | _ => s

/-- Joint server state of one orchestrator instance. -/
structure OrchSt where
  go : GoProcSt
  htmx : HtmxSt
deriving DecidableEq

/-- `HTMLnoJS.stop` (`core.py`): `await self.go_server.stop(); await
self.htmx_server.stop()` — and nothing else. -/
def HTMLnoJS.stop (s : OrchSt) : OrchSt :=
  { go := GoServer.stop s.go, htmx := HTMXServer.stop s.htmx }

/-- A `GoServer` holds no live child process. -/
def GoProcSt.stoppedState (s : GoProcSt) : Bool := s.proc == none

/-- An `HTMXServer` is not serving. -/
def HtmxSt.stoppedState (s : HtmxSt) : Bool := s.server != some true

/-- The state of a never-started instance. -/
def OrchSt.initial : OrchSt := { go := { proc := none }, htmx := { server := none, startedFlag := false } }

/-! ## Instance registry

`core.py` does `from .instance_registry import InstanceRegistry` and calls
`InstanceRegistry.register(self)` in `__init__` and
`InstanceRegistry.unregister(self.id)` in `__del__`, but the module
`instance_registry.py` itself is not present in the sources; the registry
operations are therefore modelled from the spec (§4.4). -/

/-- The registry's mapping from instance id to instance reference,
as an association list (most recent binding first). -/
abbrev Registry : Type := List (String × Nat)

/-- Outcome of `InstanceRegistry.register`, carrying the registry state
it leaves behind. -/
inductive RegisterOutcome where
  | registered (r : Registry)
  | duplicateId (r : Registry)

/-- The registry state an outcome leaves behind. -/
def RegisterOutcome.state : RegisterOutcome → Registry
  | .registered r => r
  | .duplicateId r => r

/-- Modelled from the spec: `InstanceRegistry.register(instance)` "fails
with `DuplicateId` if the id already exists" and otherwise adds the single
mapping from instance id to instance reference.  On failure the registry
is left as it was. -/
def InstanceRegistry.register (r : Registry) (id : String) (ref : Nat) : RegisterOutcome :=
  if (List.lookup id r).isSome then .duplicateId r
  else .registered ((id, ref) :: r)

/-- Modelled from the spec: `InstanceRegistry.unregister(id)` removes the
mapping for `id` and is a "no-op if absent". -/
def InstanceRegistry.unregister (r : Registry) (id : String) : Registry :=
  List.filter (fun p => p.1 != id) r

/-- Process-wide world: the registry plus one instance's server state. -/
structure World where
  registry : Registry
  servers : OrchSt

/-- `HTMLnoJS.__init__` + the `htmlnojs` factory (`core.py`): allocate the
port pair (an exhausted allocator raises out of the constructor), build
the components, and register the instance; a `DuplicateId` failure from
the registry also raises out of the constructor (`none`). -/
def HTMLnoJS.create (avail : Nat → Bool) (port : Option Nat) (id : String) (ref : Nat)
    (r : Registry) : Option World :=
  match allocate_instance_ports avail port with
  | none => none
  | some _ =>
    match InstanceRegistry.register r id ref with
    | .registered r2 => some { registry := r2, servers := OrchSt.initial }
    | .duplicateId _ => none

/-- `HTMLnoJS.stop` at the world level: it stops the two servers and does
not touch the registry (`core.py` lines 107–110). -/
def HTMLnoJS.stopWorld (w : World) : World :=
  { w with servers := HTMLnoJS.stop w.servers }

/-- `HTMLnoJS.__del__` (`core.py` lines 139–141): the only place the
instance is unregistered. -/
def HTMLnoJS.delWorld (id : String) (w : World) : World :=
  { w with registry := InstanceRegistry.unregister w.registry id }

/-! ## Helper lemmas on the poll loops -/

theorem goPollAux_died (alive : Nat → Bool) (health : Nat → Option Nat) :
    ∀ (k i fuel : Nat), k < fuel →
      (∀ j, j < k → alive (i + j) = true ∧ goTestHealth (health (i + j)) = false) →
      alive (i + k) = false →
      goPollAux alive health i fuel = .died (i + k) := by
  intro k
  induction k with
  | zero =>
    intro i fuel hk hpre hdead
    cases fuel with
    | zero => omega
    | succ fuel =>
      rw [Nat.add_zero] at hdead
      simp only [goPollAux]
      rw [if_pos hdead, Nat.add_zero]
  | succ k ih =>
    intro i fuel hk hpre hdead
    cases fuel with
    | zero => omega
    | succ fuel =>
      have h0 := hpre 0 (Nat.succ_pos k)
      rw [Nat.add_zero] at h0
      simp only [goPollAux]
      rw [if_neg (by simp [h0.1]), if_neg (by simp [h0.2])]
      have hpre2 : ∀ j, j < k → alive (i + 1 + j) = true ∧
          goTestHealth (health (i + 1 + j)) = false := by
        intro j hj
        have h := hpre (j + 1) (by omega)
        rw [show i + (j + 1) = i + 1 + j by omega] at h
        exact h
      have hdead2 : alive (i + 1 + k) = false := by
        rw [show i + 1 + k = i + (k + 1) by omega]
        exact hdead
      have := ih (i + 1) fuel (by omega) hpre2 hdead2
      rw [this, show i + 1 + k = i + (k + 1) by omega]

theorem goPollAux_healthy (alive : Nat → Bool) (health : Nat → Option Nat) :
    ∀ (k i fuel : Nat), k < fuel →
      (∀ j, j < k → alive (i + j) = true ∧ goTestHealth (health (i + j)) = false) →
      alive (i + k) = true → goTestHealth (health (i + k)) = true →
      goPollAux alive health i fuel = .healthy (i + k) := by
  intro k
  induction k with
  | zero =>
    intro i fuel hk hpre halive hok
    cases fuel with
    | zero => omega
    | succ fuel =>
      rw [Nat.add_zero] at halive hok
      simp only [goPollAux]
      rw [if_neg (by simp [halive]), if_pos hok, Nat.add_zero]
  | succ k ih =>
    intro i fuel hk hpre halive hok
    cases fuel with
    | zero => omega
    | succ fuel =>
      have h0 := hpre 0 (Nat.succ_pos k)
      rw [Nat.add_zero] at h0
      simp only [goPollAux]
      rw [if_neg (by simp [h0.1]), if_neg (by simp [h0.2])]
      have hpre2 : ∀ j, j < k → alive (i + 1 + j) = true ∧
          goTestHealth (health (i + 1 + j)) = false := by
        intro j hj
        have h := hpre (j + 1) (by omega)
        rw [show i + (j + 1) = i + 1 + j by omega] at h
        exact h
      have halive2 : alive (i + 1 + k) = true := by
        rw [show i + 1 + k = i + (k + 1) by omega]; exact halive
      have hok2 : goTestHealth (health (i + 1 + k)) = true := by
        rw [show i + 1 + k = i + (k + 1) by omega]; exact hok
      have := ih (i + 1) fuel (by omega) hpre2 halive2 hok2
      rw [this, show i + 1 + k = i + (k + 1) by omega]

theorem goPollAux_timeout (alive : Nat → Bool) (health : Nat → Option Nat) :
    ∀ (fuel i : Nat),
      (∀ j, j < fuel → alive (i + j) = true ∧ goTestHealth (health (i + j)) = false) →
      goPollAux alive health i fuel = .timedOut := by
  intro fuel
  induction fuel with
  | zero => intro i _; rfl
  | succ fuel ih =>
    intro i hpre
    have h0 := hpre 0 (Nat.succ_pos fuel)
    rw [Nat.add_zero] at h0
    simp only [goPollAux]
    rw [if_neg (by simp [h0.1]), if_neg (by simp [h0.2])]
    refine ih (i + 1) ?_
    intro j hj
    have h := hpre (j + 1) (by omega)
    rw [show i + (j + 1) = i + 1 + j by omega] at h
    exact h

theorem GoServer.start_eq_poll (alive : Nat → Bool) (health : Nat → Option Nat) :
    GoServer.start false true alive health =
      (match goPoll alive health with
       | .healthy _ => true
       | _ => false) := rfl

theorem htmxWaitAux_fst_le (probe : Nat → Option Nat) :
    ∀ (fuel i : Nat), (htmxWaitAux probe i fuel).1 ≤ i + fuel := by
  intro fuel
  induction fuel with
  | zero => intro i; simp [htmxWaitAux]
  | succ fuel ih =>
    intro i
    simp only [htmxWaitAux]
    by_cases hp : goTestHealth (probe i) = true
    · rw [if_pos hp]; omega
    · rw [if_neg hp]
      have := ih (i + 1)
      omega

theorem htmxWaitAux_snd_iff (probe : Nat → Option Nat) :
    ∀ (fuel i : Nat), (htmxWaitAux probe i fuel).2 = true ↔
      ∃ j, j < fuel ∧ goTestHealth (probe (i + j)) = true := by
  intro fuel
  induction fuel with
  | zero =>
    intro i
    simp [htmxWaitAux]
  | succ fuel ih =>
    intro i
    simp only [htmxWaitAux]
    by_cases hp : goTestHealth (probe i) = true
    · rw [if_pos hp]
      simp only [true_iff]
      exact ⟨0, Nat.succ_pos fuel, by rwa [Nat.add_zero]⟩
    · rw [if_neg hp]
      rw [ih (i + 1)]
      constructor
      · rintro ⟨j, hj, hh⟩
        refine ⟨j + 1, by omega, ?_⟩
        rwa [show i + (j + 1) = i + 1 + j by omega]
      · rintro ⟨j, hj, hh⟩
        cases j with
        | zero => rw [Nat.add_zero] at hh; exact absurd hh hp
        | succ j =>
          refine ⟨j, by omega, ?_⟩
          rwa [show i + 1 + j = i + (j + 1) by omega]

theorem waitGoAux_iff (avail : Nat → Bool) (T : Nat) :
    ∀ (fuel t : Nat), waitGoAux avail T t fuel = true ↔
      ∃ j, j < fuel ∧ t + 5 * j < T ∧ avail (t + 5 * j) = true := by
  intro fuel
  induction fuel with
  | zero =>
    intro t
    simp [waitGoAux]
  | succ fuel ih =>
    intro t
    simp only [waitGoAux]
    by_cases ht : t < T
    · rw [if_pos ht]
      by_cases ha : avail t = true
      · rw [if_pos ha]
        simp only [true_iff]
        exact ⟨0, Nat.succ_pos fuel, by simpa using ht, by simpa using ha⟩
      · rw [if_neg ha, ih (t + 5)]
        constructor
        · rintro ⟨j, hj, hlt, hav⟩
          refine ⟨j + 1, by omega, ?_, ?_⟩
          · rw [show t + 5 * (j + 1) = t + 5 + 5 * j by ring]; exact hlt
          · rw [show t + 5 * (j + 1) = t + 5 + 5 * j by ring]; exact hav
        · rintro ⟨j, hj, hlt, hav⟩
          cases j with
          | zero =>
            rw [Nat.mul_zero, Nat.add_zero] at hav
            exact absurd hav ha
          | succ j =>
            refine ⟨j, by omega, ?_, ?_⟩
            · rw [show t + 5 + 5 * j = t + 5 * (j + 1) by ring]; exact hlt
            · rw [show t + 5 + 5 * j = t + 5 * (j + 1) by ring]; exact hav
    · rw [if_neg ht]
      constructor
      · intro h
        exact absurd h Bool.false_ne_true
      · rintro ⟨j, _hj, hlt, _⟩
        exact absurd (show t < T by omega) ht

theorem wait_for_go_iff (avail : Nat → Bool) (T : Nat) :
    wait_for_go avail T = true ↔ ∃ k, 5 * k < T ∧ avail (5 * k) = true := by
  rw [wait_for_go, waitGoAux_iff]
  constructor
  · rintro ⟨j, hj, hlt, hav⟩
    exact ⟨j, by simpa using hlt, by simpa using hav⟩
  · rintro ⟨k, hlt, hav⟩
    exact ⟨k, by omega, by simpa using hlt, by simpa using hav⟩

theorem goStop_idem (g : GoProcSt) : GoServer.stop (GoServer.stop g) = GoServer.stop g := by
  cases g with
  | mk p => cases p <;> rfl

theorem htmxStop_idem (s : HtmxSt) : HTMXServer.stop (HTMXServer.stop s) = HTMXServer.stop s := by
  cases s with
  | mk sv fl =>
    cases sv with
    | none => rfl
    | some b => cases b <;> rfl

theorem lookup_unregister (id : String) : ∀ r : Registry,
    List.lookup id (InstanceRegistry.unregister r id) = none := by
  intro r
  induction r with
  | nil => rfl
  | cons q t ih =>
    obtain ⟨k, v⟩ := q
    show List.lookup id (List.filter (fun x => x.1 != id) ((k, v) :: t)) = none
    by_cases hid : k = id
    · rw [List.filter_cons_of_neg (by simp [hid])]
      exact ih
    · rw [List.filter_cons_of_pos (by simp [hid])]
      have hbeq : (id == k) = false := beq_eq_false_iff_ne.mpr (Ne.symm hid)
      simp only [List.lookup]
      rw [hbeq]
      exact ih

/-! ## Claims -/

/-- C1 (failing input): with dependencies, project setup and the HTMX
server start all succeeding, the Go child process spawning and staying
alive but never answering its health probe (every probe raises), the
30-iteration readiness loop exhausts, `HTMLnoJS.start` returns `False`
and stops the HTMX server — yet the spawned Go child process of this
instance is still alive when `start` returns: neither `GoServer.start`
nor `HTMLnoJS.start` kills it, contradicting "after any failed `start()`
no child process of that instance is still running". -/
theorem C1_failed_start_leaves_go_child :
    HTMLnoJS.start true true true true alwaysAlive probeAlwaysErrs =
      { ret := false, htmxRunning := false, goChildAlive := true } := by
  decide

/-- C2 as stated is false on the code: when every health probe of the Go
server errors, the `run()` closure of `HTMXServer.thread` exhausts its 20
wait attempts and starts the uvicorn server anyway, without ever having
observed the primary healthy. -/
theorem C2_counterexample :
    ¬ ((HTMXServer.threadRun probeAlwaysErrs).uvicornStarted = true →
       (HTMXServer.threadRun probeAlwaysErrs).goHealthy = true) := by
  decide

/-- C2 (amended): the secondary's thread waits for the primary's health
for at most 20 probe attempts, records a healthy observation exactly when
some probe among the first 20 returns a sub-500 status, and starts the
uvicorn server unconditionally afterwards — a bounded best-effort wait,
not a strict happens-before. -/
theorem C2_bounded_wait_then_start (probe : Nat → Option Nat) :
    (HTMXServer.threadRun probe).uvicornStarted = true ∧
    (HTMXServer.threadRun probe).attempts ≤ 20 ∧
    ((HTMXServer.threadRun probe).goHealthy = true ↔
      ∃ j, j < 20 ∧ goTestHealth (probe j) = true) := by
  refine ⟨rfl, ?_, ?_⟩
  · show (htmxWaitAux probe 0 20).1 ≤ 20
    simpa using htmxWaitAux_fst_le probe 20 0
  · show (htmxWaitAux probe 0 20).2 = true ↔ _
    simpa using htmxWaitAux_snd_iff probe 20 0

/-- C3: `allocate_port_pair` returns two distinct ports in ascending
order of discovery, each momentarily verified available and found within
the 1000-port scan window above the preferred start; it fails exactly
when the scan found fewer than two available ports in that window; and on
the two concrete scenarios it returns `(9000, 9001)` and `(9001, 9002)`
respectively. -/
theorem C3_reserve_pair_spec :
    (∀ (avail : Nat → Bool) (s a b : Nat), allocate_port_pair avail s = some (a, b) →
      a ≠ b ∧ a < b ∧ avail a = true ∧ avail b = true ∧ s ≤ a ∧ b < s + 1000) ∧
    (∀ (avail : Nat → Bool) (s : Nat), allocate_port_pair avail s = none ↔
      ((rangeFrom s 1000).filter avail).length < 2) ∧
    allocate_port_pair availBoth9000 9000 = some (9000, 9001) ∧
    allocate_port_pair availFrom9001 9000 = some (9001, 9002) := by
  refine ⟨?_, ?_, by decide, by decide⟩
  · intro avail s a b h
    have hs := allocate_port_pair_some avail s a b h
    exact ⟨Nat.ne_of_lt hs.1, hs⟩
  · intro avail s
    rw [allocate_port_pair_none_iff, find_available_ports_length, min_two_lt]

/-- C3 witness: the first conjunct of `C3_reserve_pair_spec` applied to
the concrete scenario in which 9000 and 9001 are both free. -/
theorem C3_witness :
    9000 ≠ 9001 ∧ 9000 < 9001 ∧ availBoth9000 9000 = true ∧
    availBoth9000 9001 = true ∧ 9000 ≤ 9000 ∧ 9001 < 9000 + 1000 :=
  C3_reserve_pair_spec.1 availBoth9000 9000 9000 9001 (by decide)

/-- C4 (registry modelled from the spec, `instance_registry.py` being
absent from the sources): registering a second instance under an id that
the registry already maps fails with `DuplicateId`, and the registry it
leaves behind still maps that id to the original reference — the entry is
not replaced. -/
theorem C4_register_duplicate (r : Registry) (id : String) (v w : Nat)
    (h : List.lookup id r = some v) :
    InstanceRegistry.register r id w = .duplicateId r ∧
    List.lookup id (InstanceRegistry.register r id w).state = some v := by
  have hsome : (List.lookup id r).isSome = true := by rw [h]; rfl
  constructor
  · unfold InstanceRegistry.register
    rw [if_pos hsome]
  · unfold InstanceRegistry.register
    rw [if_pos hsome]
    exact h

/-- C4 witness: a registry holding id `a` with reference 1 rejects a
second registration of id `a` and keeps the original entry. -/
theorem C4_witness :
    InstanceRegistry.register [("a", 1)] "a" 2 = .duplicateId [("a", 1)] ∧
    List.lookup "a" (InstanceRegistry.register [("a", 1)] "a" 2).state = some 1 :=
  C4_register_duplicate [("a", 1)] "a" 1 2 rfl

/-- C5: the readiness loop of `GoServer.start` runs at most 30
iterations; an iteration that sees the child already exited yields
`died` and a `False` return at once, and the poll result is then
independent of every probe from that iteration on (no further polling);
an iteration whose probe answers with a sub-500 status yields `healthy`
and a `True` return; probe errors only let the loop continue, and an
exhausted loop returns `False`; an errored probe is never healthy. -/
theorem C5_go_start_poll :
    (∀ (alive : Nat → Bool) (health : Nat → Option Nat) (k : Nat), k < 30 →
      (∀ j, j < k → alive j = true ∧ goTestHealth (health j) = false) →
      alive k = false →
      goPoll alive health = .died k ∧ GoServer.start false true alive health = false ∧
      (∀ health2 : Nat → Option Nat, (∀ j, j < k → health2 j = health j) →
        goPoll alive health2 = .died k)) ∧
    (∀ (alive : Nat → Bool) (health : Nat → Option Nat) (k : Nat), k < 30 →
      (∀ j, j < k → alive j = true ∧ goTestHealth (health j) = false) →
      alive k = true → goTestHealth (health k) = true →
      goPoll alive health = .healthy k ∧ GoServer.start false true alive health = true) ∧
    (∀ (alive : Nat → Bool) (health : Nat → Option Nat),
      (∀ j, j < 30 → alive j = true ∧ goTestHealth (health j) = false) →
      goPoll alive health = .timedOut ∧ GoServer.start false true alive health = false) ∧
    goTestHealth none = false := by
  refine ⟨?_, ?_, ?_, rfl⟩
  · intro alive health k hk hpre hdead
    have hdied : goPoll alive health = .died k := by
      have := goPollAux_died alive health k 0 30 hk
        (by intro j hj; simpa using hpre j hj) (by simpa using hdead)
      simpa [goPoll] using this
    refine ⟨hdied, ?_, ?_⟩
    · rw [GoServer.start_eq_poll, hdied]
    · intro health2 hagree
      have := goPollAux_died alive health2 k 0 30 hk
        (by
          intro j hj
          have h1 := hpre j hj
          have h2 := hagree j hj
          constructor
          · simpa using h1.1
          · simpa [h2] using h1.2)
        (by simpa using hdead)
      simpa [goPoll] using this
  · intro alive health k hk hpre halive hok
    have hh : goPoll alive health = .healthy k := by
      have := goPollAux_healthy alive health k 0 30 hk
        (by intro j hj; simpa using hpre j hj) (by simpa using halive)
        (by simpa using hok)
      simpa [goPoll] using this
    exact ⟨hh, by rw [GoServer.start_eq_poll, hh]⟩
  · intro alive health hpre
    have ht : goPoll alive health = .timedOut := by
      have := goPollAux_timeout alive health 30 0 (by intro j hj; simpa using hpre j hj)
      simpa [goPoll] using this
    exact ⟨ht, by rw [GoServer.start_eq_poll, ht]⟩

/-- C5 witness: the exhaustion conjunct of `C5_go_start_poll` at an
always-alive child whose every probe errors. -/
theorem C5_witness :
    goPoll alwaysAlive probeAlwaysErrs = .timedOut ∧
    GoServer.start false true alwaysAlive probeAlwaysErrs = false :=
  C5_go_start_poll.2.2.1 alwaysAlive probeAlwaysErrs (fun _j _hj => ⟨rfl, rfl⟩)

/-- C6 as stated is false on the code: `ensure_dependencies` polls only
when the install attempt reports success.  With Go absent at the initial
check, the install attempt failing, and Go becoming available right after
(within the timeout), the code returns `False` immediately, while the
claimed behaviour — install attempt followed unconditionally by polling
until availability or timeout — returns `True`. -/
theorem C6_counterexample :
    ensure_dependencies availLater false 10 = false ∧
    ensureSpec availLater false 10 = true ∧
    ensure_dependencies availLater false 10 ≠ ensureSpec availLater false 10 := by
  decide

/-- C6 (amended): `ensure_dependencies` returns `True` immediately when
the toolchain is already available; when it is not, it polls — every 5
time-units, until availability or timeout — only if the one-shot install
attempt reported success; when the install attempt reports failure (in
particular when no install capability exists) it returns `False`
immediately, without polling and without hanging. -/
theorem C6_ensure_behaviour :
    (∀ (avail : Nat → Bool) (installOk : Bool) (timeout : Nat), avail 0 = true →
      ensure_dependencies avail installOk timeout = true) ∧
    (∀ (avail : Nat → Bool) (timeout : Nat), avail 0 = false →
      ensure_dependencies avail false timeout = false) ∧
    (∀ (avail : Nat → Bool) (timeout : Nat), avail 0 = false →
      ensure_dependencies avail true timeout = wait_for_go avail timeout) ∧
    (∀ (avail : Nat → Bool) (timeout : Nat),
      wait_for_go avail timeout = true ↔ ∃ k, 5 * k < timeout ∧ avail (5 * k) = true) := by
  refine ⟨?_, ?_, ?_, wait_for_go_iff⟩
  · intro avail installOk timeout h
    simp [ensure_dependencies, h]
  · intro avail timeout h
    simp [ensure_dependencies, h]
  · intro avail timeout h
    simp [ensure_dependencies, h]

/-- C6 witness: the immediate-success conjunct of `C6_ensure_behaviour`
with the toolchain already available. -/
theorem C6_witness : ensure_dependencies alwaysAvail true 7 = true :=
  C6_ensure_behaviour.1 alwaysAvail true 7 rfl

/-- C7: `stop()` is idempotent for the Go server supervisor, the HTMX
server and the orchestrator: a second consecutive stop changes nothing,
stopping leaves the supervisors in their stopped states, and stopping a
never-started instance is a no-op producing its original (stopped)
state. -/
theorem C7_stop_idempotent :
    (∀ g : GoProcSt, GoServer.stop (GoServer.stop g) = GoServer.stop g) ∧
    (∀ s : HtmxSt, HTMXServer.stop (HTMXServer.stop s) = HTMXServer.stop s) ∧
    (∀ s : OrchSt, HTMLnoJS.stop (HTMLnoJS.stop s) = HTMLnoJS.stop s) ∧
    (∀ g : GoProcSt, (GoServer.stop g).stoppedState = true) ∧
    (∀ s : HtmxSt, (HTMXServer.stop s).stoppedState = true) ∧
    HTMLnoJS.stop OrchSt.initial = OrchSt.initial := by
  refine ⟨goStop_idem, htmxStop_idem, ?_, ?_, ?_, rfl⟩
  · intro s
    show OrchSt.mk (GoServer.stop (GoServer.stop s.go)) (HTMXServer.stop (HTMXServer.stop s.htmx)) =
      OrchSt.mk (GoServer.stop s.go) (HTMXServer.stop s.htmx)
    rw [goStop_idem, htmxStop_idem]
  · intro g
    cases g with
    | mk p => cases p <;> rfl
  · intro s
    cases s with
    | mk sv fl =>
      cases sv with
      | none => rfl
      | some b => cases b <;> rfl

/-- C8 as stated is false on the code: `HTMLnoJS.stop` (`core.py`) only
stops the two servers and never calls `InstanceRegistry.unregister`, so
after `stop()` returns the registry still contains the instance's id. -/
theorem C8_counterexample :
    ¬ (List.lookup "a"
        (HTMLnoJS.stopWorld
          { registry := [("a", 1)],
            servers :=
              { go := { proc := some true },
                htmx := { server := some true, startedFlag := true } } }).registry = none) := by
  decide

/-- C8 (amended): every successfully constructed instance is registered
immediately at creation; `HTMLnoJS.stop` leaves the registry entirely
unchanged (the entry persists); the entry is removed only by the
finalizer path `HTMLnoJS.__del__`, which unregisters the id. -/
theorem C8_registry_lifecycle (avail : Nat → Bool) (port : Option Nat) (id : String)
    (ref : Nat) (r : Registry) (w : World)
    (h : HTMLnoJS.create avail port id ref r = some w) :
    List.lookup id w.registry = some ref ∧
    (∀ w2 : World, (HTMLnoJS.stopWorld w2).registry = w2.registry) ∧
    (∀ w2 : World, List.lookup id (HTMLnoJS.delWorld id w2).registry = none) := by
  refine ⟨?_, fun w2 => rfl, fun w2 => lookup_unregister id w2.registry⟩
  unfold HTMLnoJS.create at h
  cases halloc : allocate_instance_ports avail port with
  | none => rw [halloc] at h; exact absurd h (by simp)
  | some pp =>
    rw [halloc] at h
    unfold InstanceRegistry.register at h
    by_cases hdup : (List.lookup id r).isSome = true
    · rw [if_pos hdup] at h
      exact absurd h (by simp)
    · rw [if_neg hdup] at h
      have hw : w = { registry := (id, ref) :: r, servers := OrchSt.initial } :=
        (Option.some.inj h).symm
      rw [hw]
      show List.lookup id ((id, ref) :: r) = some ref
      simp [List.lookup]

/-- C8 witness: `C8_registry_lifecycle` applied to a concrete creation
from an empty registry. -/
theorem C8_witness :
    List.lookup "a"
      ({ registry := [("a", 1)], servers := OrchSt.initial } : World).registry = some 1 :=
  (C8_registry_lifecycle availBoth9000 (some 9000) "a" 1 [] _ rfl).1

/-- C9: on both allocation paths of `HTMLnoJS.__init__` — a caller-
supplied (truthy) port giving `(port, port + 1)`, and the automatic pair
allocation — the two ports of a constructed instance are never equal. -/
theorem C9_ports_never_equal (avail : Nat → Bool) (port : Option Nat) (a b : Nat)
    (h : allocate_instance_ports avail port = some (a, b)) : a ≠ b := by
  cases port with
  | none =>
    have h2 : allocate_port_pair avail 8080 = some (a, b) := h
    exact Nat.ne_of_lt (allocate_port_pair_some avail 8080 a b h2).1
  | some p =>
    have h2 : (if p ≠ 0 then some (p, p + 1) else allocate_port_pair avail 8080) =
        some (a, b) := h
    by_cases hp : p ≠ 0
    · rw [if_pos hp] at h2
      have hinj := Option.some.inj h2
      have ha : a = p := (congrArg Prod.fst hinj).symm
      have hb : b = p + 1 := (congrArg Prod.snd hinj).symm
      omega
    · rw [if_neg hp] at h2
      exact Nat.ne_of_lt (allocate_port_pair_some avail 8080 a b h2).1

/-- C9 witness: a caller-supplied port 9000 yields the distinct pair
`(9000, 9001)`. -/
theorem C9_witness :
    allocate_instance_ports availBoth9000 (some 9000) = some (9000, 9001) ∧ 9000 ≠ 9001 :=
  ⟨by decide, C9_ports_never_equal availBoth9000 (some 9000) 9000 9001 (by decide)⟩

/-- C10 as stated is false on the code: supplying the explicit port 0 is
falsy in Python, so `HTMLnoJS.__init__` routes it through the probing
allocator; with no port available the constructor fails with the
ports-exhausted error instead of returning `(0, 1)`. -/
theorem C10_counterexample :
    allocate_instance_ports noPorts (some 0) = none ∧
    allocate_instance_ports noPorts (some 0) ≠ some (0, 0 + 1) := by
  have h0 : allocate_instance_ports noPorts (some 0) = allocate_port_pair noPorts 8080 := by
    simp [allocate_instance_ports]
  have hnone : allocate_instance_ports noPorts (some 0) = none := by
    rw [h0]
    rw [allocate_port_pair_none_iff, find_available_ports_length]
    have hf : (rangeFrom 8080 1000).filter noPorts = [] := List.filter_false _
    rw [hf]
    decide
  refine ⟨hnone, ?_⟩
  intro hc
  rw [hnone] at hc
  exact Option.noConfusion hc

/-- C10 (amended): for every caller-supplied NONZERO port the instance's
ports are exactly `(port, port + 1)`, independent of host availability
(no bind-and-release probe) and never failing; a supplied port of 0 is
treated like an absent port and goes through
`PortManager.allocate_port_pair(8080)`. -/
theorem C10_explicit_port (avail : Nat → Bool) (p : Nat) (hp : p ≠ 0) :
    allocate_instance_ports avail (some p) = some (p, p + 1) ∧
    allocate_instance_ports avail (some 0) = allocate_port_pair avail 8080 := by
  constructor
  · show (if p ≠ 0 then some (p, p + 1) else allocate_port_pair avail 8080) = some (p, p + 1)
    rw [if_pos hp]
  · show (if (0 : Nat) ≠ 0 then some ((0 : Nat), 0 + 1) else allocate_port_pair avail 8080) =
      allocate_port_pair avail 8080
    rw [if_neg (by omega)]

/-- C10 witness: `C10_explicit_port` at supplied port 9000 with every
port occupied — no probe happens and the pair is `(9000, 9001)`. -/
theorem C10_witness : allocate_instance_ports noPorts (some 9000) = some (9000, 9000 + 1) :=
  (C10_explicit_port noPorts 9000 (by decide)).1
